import Mathlib

/-!
Verification of the `trycua/trycua.github.io` landing-page component
(`src/Root.tsx`), shallowly embedded in Lean 4.

The page's logic is pure UI state: a star-count formatter, a one-shot
fetch with silent failure, a theme toggle persisted to one storage key,
an outside-click menu closer, a scroll-visibility tracker, a video modal
with stopped propagation, and a trailing-edge debounce helper.  Each is
translated below; machine numbers are modelled as `Nat` (the quantities
involved — star counts, scroll offsets, times — are non-negative
integers, and the JavaScript double arithmetic used by the source is
exact on this range).
-/

namespace TryCua

/-! ### Star-count formatter (`formatStarCount`, Root.tsx lines 4–12)

```
const formatStarCount = (count: number | null): string => {
  if (count === null) return '0';
  if (count >= 1000) {
    const roundedCount = Math.round(count / 100) * 100;
    return `${(roundedCount / 1000).toFixed(1).replace(/\.0$/, '')}k`;
  }
  return count.toString();
};
```

`Math.round(c / 100)` for a non-negative integer `c` rounds half up,
i.e. it equals `(c + 50) / 100` in natural-number (floor) division.
`roundedCount` is a multiple of 100, so `roundedCount / 1000` is exactly
`(roundedCount / 100) / 10` tenths; `toFixed(1)` renders that value with
exactly one decimal digit, and the regex replace strips a trailing
`".0"` suffix. -/

/-- JavaScript `Math.round(c / 100)` for a non-negative integer `c`:
round to nearest, ties up. -/
def jsRoundDiv100 (c : Nat) : Nat := (c + 50) / 100

/-- Render the value `tenths / 10` with exactly one decimal place, as
`toFixed(1)` does for such a value. -/
def toFixed1 (tenths : Nat) : String :=
  toString (tenths / 10) ++ "." ++ toString (tenths % 10)

/-- Does the string end in the two characters `".0"`? -/
def endsWithDotZero (s : String) : Bool :=
  match s.data.reverse with
  | '0' :: '.' :: _ => true
  | _ => false

/-- `s.replace(/\.0$/, '')`: strip a trailing `".0"`. -/
def stripDotZero (s : String) : String :=
  if endsWithDotZero s then ⟨s.data.dropLast.dropLast⟩ else s

/-- `formatStarCount` from Root.tsx; `none` models the `null` count. -/
def formatStarCount : Option Nat → String
  | none => "0"
  | some count =>
      if count ≥ 1000 then
        let roundedCount := jsRoundDiv100 count * 100
        stripDotZero (toFixed1 (roundedCount / 100)) ++ "k"
      else
        toString count

/-- The rendering the claim describes for counts `c ≥ 1000`:
`round(c/100)*100` divided by 1000, rendered with exactly one decimal
place, trailing `".0"` stripped, `"k"` appended.  Since
`round(c/100)*100` is a multiple of 100, dividing it by 1000 yields
`round(c/100)` tenths. -/
def claimedLargeFormat (c : Nat) : String :=
  let rounded := jsRoundDiv100 c * 100
  stripDotZero (toFixed1 (rounded / 100)) ++ "k"

/-! ### One-shot star-count fetch (`fetchStars`, Root.tsx lines 61–99)

```
const fetchStars = async () => {
  try {
    const response = await fetch('https://api.github.com/repos/trycua/lume', …);
    if (!response.ok) { console.error(…); return; }
    const data = await response.json();
    if (!data || typeof data.stargazers_count !== 'number') {
      console.error(…); return;
    }
    setLumeStars(data.stargazers_count);
  } catch (error) { console.error(…); }
};
```

The environment is modelled by the outcome of the request: either the
`fetch`/`json` promise rejects (an exception, caught by the `try`), or a
response arrives with an `ok` flag and a JSON payload whose
`stargazers_count` field is null/absent, a non-number, or a number. -/

/-- The state of `data.stargazers_count` in the parsed payload. -/
inductive FieldVal where
  /-- `data` itself is null/undefined (the `!data` test fires). -/
  | nullData : FieldVal
  /-- The field is absent (`typeof undefined !== 'number'`). -/
  | absent : FieldVal
  /-- The field is present but not a number. -/
  | nonNumber : FieldVal
  /-- The field is the number `n` (a GitHub star count: a non-negative
  integer). -/
  | number (n : Nat) : FieldVal
deriving DecidableEq

/-- The outcome of the HTTP request seen by `fetchStars`. -/
inductive FetchOutcome where
  /-- The request (or body read) throws: network failure. -/
  | networkFailure : FetchOutcome
  /-- A response arrived: `ok` is the HTTP success flag, `payload` the
  state of `data.stargazers_count`. -/
  | response (ok : Bool) (payload : FieldVal) : FetchOutcome
deriving DecidableEq

/-- The body of `fetchStars` before the `catch`: `error` models the
thrown exception, `ok v` the new value passed to `setLumeStars`
(`none` when the routine returns early without setting it). -/
def fetchStarsBody : FetchOutcome → Except Unit (Option Nat)
  | .networkFailure => .error ()
  | .response ok payload =>
      if !ok then .ok none
      else
        match payload with
        | .number n => .ok (some n)
        | _ => .ok none

/-- `fetchStars` with its `try`/`catch`: every exception is caught and
logged, leaving the star state at its initial `none`. -/
def fetchStars (o : FetchOutcome) : Option Nat :=
  match fetchStarsBody o with
  | .ok s => s
  | .error _ => none

/-- A failing outcome: network failure, non-success status, or a payload
whose `stargazers_count` is missing or not a number. -/
def failingOutcome : FetchOutcome → Bool
  | .networkFailure => true
  | .response ok payload =>
      !ok || (match payload with | .number _ => false | _ => true)

/-! ### Theme toggle (`toggleTheme`, Root.tsx lines 36–45, and the
`isDarkMode` initializer, lines 29–33)

```
const [isDarkMode, setIsDarkMode] = useState(() => {
  const savedTheme = localStorage.getItem('theme');
  return savedTheme === 'dark';
});
const toggleTheme = () => {
  setIsDarkMode((prev) => {
    const newTheme = !prev;
    localStorage.setItem('theme', newTheme ? 'dark' : 'light');
    document.documentElement.classList.toggle('dark');
    return newTheme;
  });
};
```
-/

/-- The theme-relevant state: the in-memory preference, the value stored
under the `'theme'` key (`none` when the key is absent), and whether the
document root carries the `dark` class. -/
structure ThemeState where
  isDarkMode : Bool
  storage : Option String
  rootDark : Bool
deriving DecidableEq

/-- `toggleTheme` from Root.tsx: flip the preference, persist
`'dark'`/`'light'`, toggle the root class. -/
def toggleTheme (s : ThemeState) : ThemeState :=
  let newTheme := !s.isDarkMode
  { isDarkMode := newTheme
    storage := some (if newTheme then "dark" else "light")
    rootDark := !s.rootDark }

/-- The `isDarkMode` initializer: `localStorage.getItem('theme') === 'dark'`
(`getItem` yields `null` when the key is absent, and `null === 'dark'`
is false). -/
def initIsDarkMode : Option String → Bool
  | some saved => saved == "dark"
  | none => false

end TryCua

open TryCua

/-- C1: for every non-negative integer count `c`, the star-count
formatter returns the decimal digits of `c` when `c < 1000`, and when
`c ≥ 1000` it returns `round(c/100)*100` divided by 1000, rendered with
exactly one decimal place, trailing `".0"` stripped and `"k"` appended;
in particular `format 999 = "999"`, `format 1000 = "1k"`,
`format 1250 = "1.3k"` and `format 15800 = "15.8k"`. -/
theorem formatStarCount_spec :
    (∀ c : Nat, c < 1000 → formatStarCount (some c) = toString c) ∧
    (∀ c : Nat, 1000 ≤ c → formatStarCount (some c) = claimedLargeFormat c) ∧
    formatStarCount (some 999) = "999" ∧
    formatStarCount (some 1000) = "1k" ∧
    formatStarCount (some 1250) = "1.3k" ∧
    formatStarCount (some 15800) = "15.8k" := by
  refine ⟨?_, ?_, by decide, by decide, by decide, by decide⟩
  · intro c hc
    simp [formatStarCount, Nat.not_le.mpr hc]
  · intro c hc
    simp [formatStarCount, claimedLargeFormat, hc]

/-- Witness for C1 at concrete inputs. -/
theorem formatStarCount_spec_witness :
    formatStarCount (some 500) = toString 500 ∧
    formatStarCount (some 2000) = claimedLargeFormat 2000 :=
  ⟨formatStarCount_spec.1 500 (by decide),
   formatStarCount_spec.2.1 2000 (by decide)⟩

/-- C2: for every failing outcome of the one-shot star-count fetch —
network failure, non-success HTTP status, or a payload whose
`stargazers_count` field is missing or not a number — the star state
remains `none`, the displayed count is the default `"0"`, and the
routine returns normally (the `catch` swallows the thrown error, so the
result is an ordinary value, never an exception). -/
theorem fetchStars_failing_spec :
    ∀ o : FetchOutcome, failingOutcome o = true →
      fetchStars o = none ∧ formatStarCount (fetchStars o) = "0" := by
  intro o h
  cases o with
  | networkFailure => exact ⟨rfl, rfl⟩
  | response ok payload =>
      cases ok <;> cases payload <;>
        simp_all [failingOutcome, fetchStars, fetchStarsBody, formatStarCount]

/-- Witness for C2: an HTTP 404-style response (`ok = false`). -/
theorem fetchStars_failing_spec_witness :
    fetchStars (.response false (.number 5000)) = none ∧
    formatStarCount (fetchStars (.response false (.number 5000))) = "0" :=
  fetchStars_failing_spec (.response false (.number 5000)) (by decide)

/-- C3 counterexample: starting from light mode with no stored theme
key, toggling the theme twice restores the preference but leaves the
storage key set to `"light"`, which differs from the original absent
value — so double toggling does not restore the original persisted
storage value. -/
theorem toggleTheme_twice_counterexample :
    (toggleTheme (toggleTheme ⟨false, none, false⟩)).storage ≠
      (ThemeState.mk false none false).storage := by
  decide

/-- C3 (amended): toggling twice always restores the in-memory
preference and the document-root dark marker, and it restores the
persisted storage value exactly when the starting storage value was
already the canonical string for the starting preference (`"dark"` when
dark, `"light"` when light — in particular after any earlier toggle); in
general the storage value after a double toggle is that canonical
string. -/
theorem toggleTheme_twice_amended :
    ∀ s : ThemeState,
      (toggleTheme (toggleTheme s)).isDarkMode = s.isDarkMode ∧
      (toggleTheme (toggleTheme s)).rootDark = s.rootDark ∧
      (toggleTheme (toggleTheme s)).storage =
        some (if s.isDarkMode then "dark" else "light") ∧
      (s.storage = some (if s.isDarkMode then "dark" else "light") →
        (toggleTheme (toggleTheme s)).storage = s.storage) := by
  intro s
  obtain ⟨d, st, r⟩ := s
  cases d <;> simp [toggleTheme] <;> exact fun h => h.symm

/-- Witness for C3's amended theorem: a dark-mode state whose stored
value is the canonical `"dark"` has its storage value restored. -/
theorem toggleTheme_twice_amended_witness :
    (toggleTheme (toggleTheme ⟨true, some "dark", true⟩)).storage =
      (ThemeState.mk true (some "dark") true).storage :=
  (toggleTheme_twice_amended ⟨true, some "dark", true⟩).2.2.2 rfl

/-- C6: after every invocation of `toggleTheme`, the stored theme value
is exactly `some "dark"` or `some "light"`, and it is `some "dark"` if
and only if the new in-memory preference is dark. -/
theorem toggleTheme_storage_invariant :
    ∀ s : ThemeState,
      ((toggleTheme s).storage = some "dark" ∨
        (toggleTheme s).storage = some "light") ∧
      ((toggleTheme s).storage = some "dark" ↔
        (toggleTheme s).isDarkMode = true) := by
  intro s
  cases h : s.isDarkMode <;> simp [toggleTheme, h]

/-- Witness for C6 at a concrete state. -/
theorem toggleTheme_storage_invariant_witness :
    ((toggleTheme ⟨false, none, false⟩).storage = some "dark" ∨
      (toggleTheme ⟨false, none, false⟩).storage = some "light") ∧
    ((toggleTheme ⟨false, none, false⟩).storage = some "dark" ↔
      (toggleTheme ⟨false, none, false⟩).isDarkMode = true) :=
  toggleTheme_storage_invariant ⟨false, none, false⟩

/-- C9: at initialization the preference is dark if and only if the
stored value is exactly `some "dark"`; an absent key, `"light"`, or any
other string yields light mode. -/
theorem initIsDarkMode_spec :
    (∀ v : Option String, initIsDarkMode v = true ↔ v = some "dark") ∧
    initIsDarkMode none = false ∧
    initIsDarkMode (some "light") = false ∧
    initIsDarkMode (some "dark") = true := by
  refine ⟨?_, rfl, by decide, by decide⟩
  intro v
  cases v with
  | none => simp [initIsDarkMode]
  | some s => simp [initIsDarkMode]

/-- Witness for C9 at a concrete stored value. -/
theorem initIsDarkMode_spec_witness :
    initIsDarkMode (some "dark") = true :=
  (initIsDarkMode_spec.1 (some "dark")).mpr rfl

namespace TryCua

/-! ### Outside-click menu closing (`handleClick`, Root.tsx lines 102–112)

```
const handleClick = (event: MouseEvent) => {
  const target = event.target as HTMLElement;
  if (isMenuOpen && !target.closest('[data-menu-container]')) {
    setIsMenuOpen(false);
  }
};
```

A click target is modelled by its ancestor chain (the element itself
first, then its ancestors up to the root); the only relevant feature of
each element is whether it carries the `data-menu-container`
attribute. -/

/-- An element on a click target's ancestor chain. -/
structure Elem where
  menuContainer : Bool
deriving DecidableEq

/-- `target.closest('[data-menu-container]')`: the first element of the
chain (self first, then ancestors) carrying the attribute, or `none`. -/
def closestMenuContainer (chain : List Elem) : Option Elem :=
  chain.find? (·.menuContainer)

/-- The document-level `handleClick`: returns the menu state after the
click, given the state when the click is dispatched. -/
def handleClick (isMenuOpen : Bool) (chain : List Elem) : Bool :=
  if isMenuOpen && (closestMenuContainer chain).isNone then false
  else isMenuOpen

/-! ### Scroll-visibility tracking (Root.tsx lines 115–141 and the CTA
visibility condition at lines 337–340)

```
const checkScroll = () => {
  const { scrollTop, scrollHeight, clientHeight } = document.documentElement;
  const hasScrollableContent = scrollHeight > clientHeight + 10;
  const hasScrolled = scrollTop > 5;
  setIsScrolled(hasScrollableContent && hasScrolled);
};
const initTimeout = setTimeout(() => { setIsInitialized(true); checkScroll(); }, 100);
const debouncedScroll = debounce(checkScroll, 50);
const debouncedResize = debounce(checkScroll, 100);
```
and the CTA is rendered visible iff `isScrolled && isInitialized`.

The page is a transition system: the document metrics change when the
user scrolls or the window resizes, and `isScrolled` is recomputed from
the metrics only when the init timeout fires or a debounced
scroll/resize callback runs. -/

/-- The document-element measurements `checkScroll` destructures. -/
structure Metrics where
  scrollTop : Nat
  scrollHeight : Nat
  clientHeight : Nat
deriving DecidableEq

/-- The value `checkScroll` stores into `isScrolled`:
`scrollHeight > clientHeight + 10 && scrollTop > 5`. -/
def checkScroll (m : Metrics) : Bool :=
  decide (m.scrollHeight > m.clientHeight + 10) && decide (m.scrollTop > 5)

/-- The scroll-visibility state of the page. -/
structure PageState where
  initialized : Bool
  isScrolled : Bool
  metrics : Metrics
deriving DecidableEq

/-- The events that affect the scroll-visibility state. -/
inductive PageEvent where
  /-- The 100 ms init timeout fires: `setIsInitialized(true); checkScroll()`. -/
  | initFire : PageEvent
  /-- The user scrolls or the window resizes: the document metrics
  change (the debounced recomputation runs later, if at all). -/
  | metricsChange (m : Metrics) : PageEvent
  /-- A debounced scroll/resize callback fires: `checkScroll()` runs on
  the current metrics. -/
  | debounceFire : PageEvent
deriving DecidableEq

/-- One transition of the scroll-visibility state. -/
def pageStep (s : PageState) : PageEvent → PageState
  | .initFire => { s with initialized := true, isScrolled := checkScroll s.metrics }
  | .metricsChange m => { s with metrics := m }
  | .debounceFire => { s with isScrolled := checkScroll s.metrics }

/-- Run a sequence of events from a state. -/
def pageRun (s : PageState) (evs : List PageEvent) : PageState :=
  evs.foldl pageStep s

/-- The state at mount: `isInitialized = false`, `isScrolled = false`,
with the initial document metrics. -/
def initialPage (m : Metrics) : PageState := ⟨false, false, m⟩

/-- The CTA visibility condition of the render:
`isScrolled && isInitialized`. -/
def ctaVisible (s : PageState) : Bool := s.isScrolled && s.initialized

/-! ### Video modal clicks (Root.tsx lines 381–407)

The overlay backdrop has `onClick={() => setShowVideo(false)}`; the
inner content wrapper has `onClick={e => e.stopPropagation()}`.  A click
bubbles from its target along the path to the root, running each
element's handler until one stops propagation. -/

/-- A node on a click's bubbling path inside the video modal. -/
structure ModalNode where
  /-- The node's handler calls `setShowVideo(false)`. -/
  closesOnClick : Bool
  /-- The node's handler calls `e.stopPropagation()`. -/
  stopsPropagation : Bool
deriving DecidableEq

/-- The overlay backdrop: `onClick={() => setShowVideo(false)}`. -/
def overlayNode : ModalNode := ⟨true, false⟩

/-- The inner content wrapper: `onClick={e => e.stopPropagation()}`. -/
def innerContentNode : ModalNode := ⟨false, true⟩

/-- Bubble a click along the path from target to root, running each
node's handler; returns the resulting `showVideo` state. -/
def dispatchClick (showVideo : Bool) : List ModalNode → Bool
  | [] => showVideo
  | n :: rest =>
      let after := if n.closesOnClick then false else showVideo
      if n.stopsPropagation then after else dispatchClick after rest

/-! ### Debounce (`debounce`, Root.tsx lines 15–21)

```
const debounce = (fn: Function, ms = 100) => {
  let timeoutId: ReturnType<typeof setTimeout>;
  return function (this: any, ...args: any[]) {
    clearTimeout(timeoutId);
    timeoutId = setTimeout(() => fn.apply(this, args), ms);
  };
};
```

There is a single `timeoutId` slot, so at most one invocation is ever
pending.  Given the (increasing) times at which the wrapper is called,
`debounceRun` returns the times at which the wrapped function fires: a
pending timer with deadline `d` fires iff no further call arrives
strictly before `d`; each call clears any still-pending timer and
schedules a new one `T` later. -/

/-- Run the debounce wrapper over call times, threading the deadline of
the single pending timer; returns the wrapped function's fire times. -/
def debounceRun (T : Nat) : Option Nat → List Nat → List Nat
  | some d, [] => [d]
  | none, [] => []
  | some d, e :: rest =>
      if d ≤ e then d :: debounceRun T (some (e + T)) rest
      else debounceRun T (some (e + T)) rest
  | none, e :: rest => debounceRun T (some (e + T)) rest

/-- A burst for quiet period `T`: a nonempty strictly increasing list of
call times in which each call arrives within `T` of the previous one
(so no quiet period occurs inside the burst). -/
def isBurst (T : Nat) : List Nat → Bool
  | [] => false
  | [_] => true
  | e :: e' :: rest => decide (e < e') && decide (e' < e + T) && isBurst T (e' :: rest)

/-- The scroll listener's debounce delay (Root.tsx line 130). -/
def scrollDebounceMs : Nat := 50

/-- The resize listener's debounce delay (Root.tsx line 131). -/
def resizeDebounceMs : Nat := 100

/-- Within a burst each new call lands before the pending deadline, so
the pending timer is always replaced and only the last call's timer
fires, `T` after the last call. -/
theorem debounceRun_pending_of_burst :
    ∀ (T : Nat) (events : List Nat) (e : Nat), isBurst T (e :: events) = true →
      debounceRun T (some (e + T)) events = [(e :: events).getLastD 0 + T] := by
  intro T events
  induction events with
  | nil => intro e _; rfl
  | cons e' rest ih =>
      intro e h
      simp only [isBurst, Bool.and_eq_true, decide_eq_true_eq] at h
      obtain ⟨⟨_, hlt⟩, hburst⟩ := h
      have hnotle : ¬ e + T ≤ e' := Nat.not_le.mpr hlt
      simp only [debounceRun, if_neg hnotle]
      have := ih e' hburst
      simpa [List.getLastD_cons] using this

end TryCua

/-- C4: for every click dispatched while the menu is open, the menu
closes exactly when no element of the target's ancestor chain carries
the `data-menu-container` attribute, and stays open when one does. -/
theorem handleClick_outside_spec :
    ∀ chain : List Elem,
      ((closestMenuContainer chain).isNone = true →
        handleClick true chain = false) ∧
      ((closestMenuContainer chain).isSome = true →
        handleClick true chain = true) := by
  intro chain
  cases h : closestMenuContainer chain <;>
    simp [handleClick, h]

/-- Witness for C4: a click outside any marked container (empty chain)
closes the menu; a click whose target chain holds a marked container
leaves it open. -/
theorem handleClick_outside_spec_witness :
    handleClick true [] = false ∧
    handleClick true [Elem.mk false, Elem.mk true] = true :=
  ⟨(handleClick_outside_spec []).1 (by decide),
   (handleClick_outside_spec [Elem.mk false, Elem.mk true]).2 (by decide)⟩

/-- C10: the outside-click handler never opens the menu: a click while
the menu is closed leaves it closed, and the menu is open after the
handler only if it was open before. -/
theorem handleClick_never_opens :
    ∀ (isMenuOpen : Bool) (chain : List Elem),
      (isMenuOpen = false → handleClick isMenuOpen chain = false) ∧
      (handleClick isMenuOpen chain = true → isMenuOpen = true) := by
  intro b chain
  cases b <;> simp [handleClick]

/-- Witness for C10: a click with the menu closed leaves it closed. -/
theorem handleClick_never_opens_witness :
    handleClick false [] = false :=
  (handleClick_never_opens false []).1 rfl

/-- C5 counterexample: the claim fails as an invariant over reachable
states.  Start at metrics (scrollTop 6, scrollHeight 100, clientHeight
50); the init timeout fires (so `isScrolled := true` and
`isInitialized := true`); then the user scrolls back to the top
(scrollTop 0) and the state is inspected before the debounced callback
fires.  The CTA is visible, yet the current scroll offset is 0, not
greater than the threshold 5. -/
theorem ctaVisible_stale_counterexample :
    ctaVisible (pageRun (initialPage ⟨6, 100, 50⟩)
        [.initFire, .metricsChange ⟨0, 100, 50⟩]) = true ∧
    (pageRun (initialPage ⟨6, 100, 50⟩)
        [.initFire, .metricsChange ⟨0, 100, 50⟩]).metrics.scrollTop = 0 ∧
    checkScroll (pageRun (initialPage ⟨6, 100, 50⟩)
        [.initFire, .metricsChange ⟨0, 100, 50⟩]).metrics = false := by
  decide

/-- C5 (amended): in every state the CTA is visible only if the
initialization delay has elapsed; and immediately after any visibility
recomputation — the init-timeout firing or a debounced scroll/resize
callback — the CTA is visible iff initialization has happened and the
metrics read by that recomputation satisfy both thresholds
(`scrollHeight > clientHeight + 10` and `scrollTop > 5`).  Between a
metrics change and the next recomputation, visibility may still reflect
the previously measured metrics. -/
theorem ctaVisible_amended :
    (∀ s : PageState, ctaVisible s = true → s.initialized = true) ∧
    (∀ s : PageState, ctaVisible (pageStep s .initFire) = checkScroll s.metrics) ∧
    (∀ s : PageState,
      ctaVisible (pageStep s .debounceFire) = (checkScroll s.metrics && s.initialized)) := by
  refine ⟨?_, ?_, ?_⟩
  · intro s h
    simp only [ctaVisible, Bool.and_eq_true] at h
    exact h.2
  · intro s
    simp [ctaVisible, pageStep]
  · intro s
    rfl

/-- Witness for C5's amended theorem: a visible state is initialized. -/
theorem ctaVisible_amended_witness :
    (PageState.mk true true ⟨6, 100, 50⟩).initialized = true :=
  ctaVisible_amended.1 ⟨true, true, ⟨6, 100, 50⟩⟩ (by decide)

/-- C7: while the video modal is visible, a click on the overlay
backdrop (whose bubbling path is just the overlay) hides it, while a
click on the inner content (whose path reaches the inner wrapper first)
leaves it visible, because propagation stops at the inner element
before the overlay's closing handler can run. -/
theorem videoModal_click_spec :
    dispatchClick true [overlayNode] = false ∧
    dispatchClick true [innerContentNode, overlayNode] = true := by
  decide

/-- C8: for every finite burst of calls to a debounce wrapper with quiet
period `T` — each call arriving strictly within `T` of the previous one,
so that every call resets the pending timer — the wrapped function is
invoked exactly once, `T` after the last call of the burst; in
particular this holds at the scroll delay (50 ms) and the resize delay
(100 ms), and the single `timeoutId` slot means at most one invocation
is ever pending. -/
theorem debounce_burst_spec :
    (∀ (T : Nat) (events : List Nat), isBurst T events = true →
      debounceRun T none events = [events.getLastD 0 + T] ∧
      (debounceRun T none events).length = 1) ∧
    (∀ events : List Nat, isBurst scrollDebounceMs events = true →
      debounceRun scrollDebounceMs none events =
        [events.getLastD 0 + scrollDebounceMs]) ∧
    (∀ events : List Nat, isBurst resizeDebounceMs events = true →
      debounceRun resizeDebounceMs none events =
        [events.getLastD 0 + resizeDebounceMs]) := by
  have main : ∀ (T : Nat) (events : List Nat), isBurst T events = true →
      debounceRun T none events = [events.getLastD 0 + T] := by
    intro T events h
    match events with
    | [] => simp [isBurst] at h
    | e :: rest =>
        have : debounceRun T none (e :: rest) = debounceRun T (some (e + T)) rest := by
          cases rest <;> rfl
        rw [this, debounceRun_pending_of_burst T rest e h]
  refine ⟨?_, ?_, ?_⟩
  · intro T events h
    exact ⟨main T events h, by rw [main T events h]; rfl⟩
  · intro events h
    exact main scrollDebounceMs events h
  · intro events h
    exact main resizeDebounceMs events h

/-- Witness for C8: a burst of calls at times 0, 10, 20 under the scroll
delay fires exactly once, at time 70. -/
theorem debounce_burst_spec_witness :
    debounceRun 50 none [0, 10, 20] = [List.getLastD [0, 10, 20] 0 + 50] ∧
    (debounceRun 50 none [0, 10, 20]).length = 1 :=
  debounce_burst_spec.1 50 [0, 10, 20] (by decide)
